import Mathlib

/-!
Shallow embedding of the PhantomStrike TCP client/server pair
(`src/client/functions/data_sender.py` and `src/Server.py`), together with
proofs of the behavioural properties its specification states.

Network effects are modelled by explicit environment values describing what
each socket operation would return (or raise), and each embedded function
returns, besides its Python return value, counters for the observable side
effects the spec talks about: connection attempts, backoff sleeps, close
calls, acknowledgment bytes written.
-/

namespace PhantomStrike

/-! ## UTF-8 encoding and decoding

Python's `str.encode('utf-8')` and `bytes.decode('utf-8')` (strict mode).
Bytes are modelled as `List Nat` with every element below 256.
-/

/-- UTF-8 encoding of a single code point (assumed to be a valid scalar
value, as every Python `str` character is). -/
def utf8EncodeChar (n : Nat) : List Nat :=
  if n < 0x80 then [n]
  else if n < 0x800 then
    [0xC0 + n / 0x40, 0x80 + n % 0x40]
  else if n < 0x10000 then
    [0xE0 + n / 0x1000, 0x80 + (n / 0x40) % 0x40, 0x80 + n % 0x40]
  else
    [0xF0 + n / 0x40000, 0x80 + (n / 0x1000) % 0x40,
     0x80 + (n / 0x40) % 0x40, 0x80 + n % 0x40]

/-- UTF-8 encoding of a character sequence. -/
def utf8EncodeChars (cs : List Char) : List Nat :=
  cs.flatMap fun c => utf8EncodeChar c.toNat

/-- `str.encode('utf-8')`. -/
def utf8Encode (s : String) : List Nat :=
  utf8EncodeChars s.data

/-- Is `b` a UTF-8 continuation byte (`0x80..0xBF`)? -/
def isCont (b : Nat) : Bool :=
  0x80 ≤ b && b < 0xC0

/-- The 6 payload bits of a continuation byte. -/
def contVal (b : Nat) : Nat := b % 0x40

/-- Strict UTF-8 decoding of a byte list into characters.  Mirrors CPython's
strict decoder: rejects stray continuation bytes, overlong forms, surrogate
code points and code points above `U+10FFFF`. -/
def utf8DecodeAux : List Nat → Option (List Char)
  | [] => some []
  | b :: rest =>
    if b < 0x80 then
      (utf8DecodeAux rest).map (Char.ofNat b :: ·)
    else if b < 0xC2 then
      none
    else if b < 0xE0 then
      match rest with
      | b1 :: rest1 =>
        if isCont b1 then
          (utf8DecodeAux rest1).map (Char.ofNat ((b - 0xC0) * 0x40 + contVal b1) :: ·)
        else none
      | [] => none
    else if b < 0xF0 then
      match rest with
      | b1 :: b2 :: rest2 =>
        if isCont b1 && isCont b2 then
          let cp := (b - 0xE0) * 0x1000 + contVal b1 * 0x40 + contVal b2
          if cp < 0x800 then none
          else if 0xD800 ≤ cp && cp < 0xE000 then none
          else (utf8DecodeAux rest2).map (Char.ofNat cp :: ·)
        else none
      | _ => none
    else if b < 0xF5 then
      match rest with
      | b1 :: b2 :: b3 :: rest3 =>
        if isCont b1 && isCont b2 && isCont b3 then
          let cp := (b - 0xF0) * 0x40000 + contVal b1 * 0x1000 +
                    contVal b2 * 0x40 + contVal b3
          if cp < 0x10000 || 0x10FFFF < cp then none
          else (utf8DecodeAux rest3).map (Char.ofNat cp :: ·)
        else none
      | _ => none
    else none

/-- `bytes.decode('utf-8')`: `some` of the decoded string, or `none` when
the decoder raises `UnicodeDecodeError`. -/
def utf8Decode (bs : List Nat) : Option String :=
  (utf8DecodeAux bs).map fun cs => ⟨cs⟩

/-! ## Python payload blank test

`send_data` guards on `not data or not data.strip()`, i.e. the payload is
empty or consists solely of whitespace (`str.strip` with no argument strips
the characters for which `str.isspace` holds). -/

/-- The characters Python's `str.strip()` removes: exactly those with
`c.isspace()` true. -/
def isPySpace (c : Char) : Bool :=
  let n := c.toNat
  (0x09 ≤ n && n ≤ 0x0d) || (0x1c ≤ n && n ≤ 0x1f) || n = 0x20 ||
  n = 0x85 || n = 0xa0 || n = 0x1680 || (0x2000 ≤ n && n ≤ 0x200a) ||
  n = 0x2028 || n = 0x2029 || n = 0x202f || n = 0x205f || n = 0x3000

/-- `str.strip()` on the character list. -/
def pyStrip (cs : List Char) : List Char :=
  ((cs.dropWhile isPySpace).reverse.dropWhile isPySpace).reverse

/-- The guard `not data or not data.strip()` of `DataSender.send_data`. -/
def isBlankPayload (s : String) : Bool :=
  s.data.isEmpty || (pyStrip s.data).isEmpty

/-! ## Client: `DataSender` (`src/client/functions/data_sender.py`)

The network environment of one send cycle is a `CycleEnv`: what
`socket.connect` would do, what `sendall` would do once connected, and what
the acknowledgment `recv` would yield.  `send_data`'s retry loop consumes
one `CycleEnv` per attempt number. -/

/-- Outcome of the `connect` call inside `_create_connection`. -/
inductive ConnResult
  | ok
  | timeout
  | sockErr
  | otherErr
deriving DecidableEq, Repr

/-- `DataSender._create_connection`: returns a socket (`some ()`) on
success, `None` when `connect` raised `socket.timeout`, `socket.error` or
any other exception (each is caught and logged). -/
def createConnection : ConnResult → Option Unit
  | .ok => some ()
  | .timeout => none
  | .sockErr => none
  | .otherErr => none

/-- Outcome of the `sendall` call. -/
inductive SendallResult
  | ok
  | sockErr
  | otherErr
deriving DecidableEq, Repr

/-- Outcome of a `recv` call: bytes returned (possibly empty), or a raised
`socket.timeout`, or a raised `socket.error`, or another raised
exception. -/
inductive RecvResult
  | bytes (b : List Nat)
  | timeout
  | sockErr
  | otherErr
deriving DecidableEq, Repr

/-- Environment for one connection cycle of the client. -/
structure CycleEnv where
  conn : ConnResult
  write : SendallResult
  ack : RecvResult
  closeOk : Bool
deriving DecidableEq, Repr

/-- Result of `_send_data_once` plus its observable side effects. -/
structure CycleOut where
  ok : Bool
  connCalls : Nat
  closes : Nat
  ackWarned : Bool
deriving DecidableEq, Repr

/-- Whether the acknowledgment block of `_send_data_once` logs a warning:
`recv` raised (`socket.timeout` or other), or the received bytes were
non-empty and failed to decode (the `UnicodeDecodeError` is caught by the
inner `except Exception`). -/
def ackWarning : RecvResult → Bool
  | .timeout => true
  | .sockErr => true
  | .otherErr => true
  | .bytes b => !b.isEmpty && (utf8Decode b).isNone

/-- `DataSender._send_data_once`: one connection cycle.  Fails only when no
connection could be made or `sendall` raised; the acknowledgment `recv`
outcome is logged at worst as a warning and the attempt still returns
`True`.  The `finally` block closes the socket whenever one was created. -/
def sendDataOnce (env : CycleEnv) : CycleOut :=
  match createConnection env.conn with
  | none => { ok := false, connCalls := 1, closes := 0, ackWarned := false }
  | some _ =>
    match env.write with
    | .sockErr => { ok := false, connCalls := 1, closes := 1, ackWarned := false }
    | .otherErr => { ok := false, connCalls := 1, closes := 1, ackWarned := false }
    | .ok =>
      { ok := true, connCalls := 1, closes := 1, ackWarned := ackWarning env.ack }

/-- Result of `send_data` plus its observable side effects. -/
structure SendOut where
  ok : Bool
  attempts : Nat
  connCalls : Nat
  sleeps : List Nat
deriving DecidableEq, Repr

/-- The attempt numbers `range(1, retry_attempts + 1)` of the retry loop
(empty when `retry_attempts <= 0`). -/
def attemptNumbers (retry : Int) : List Nat :=
  (List.range retry.toNat).map (· + 1)

/-- The body of `send_data`'s `for attempt in range(1, retry_attempts+1)`
loop: try `_send_data_once`; return success immediately if it succeeded;
otherwise sleep `attempt * 2` seconds when `attempt < retry_attempts`, and
go on to the next attempt. -/
def sendDataLoop (cycles : Nat → CycleEnv) (retry : Int) : List Nat → SendOut
  | [] => { ok := false, attempts := 0, connCalls := 0, sleeps := [] }
  | a :: rest =>
    let c := sendDataOnce (cycles a)
    if c.ok then
      { ok := true, attempts := 1, connCalls := c.connCalls, sleeps := [] }
    else
      let r := sendDataLoop cycles retry rest
      if (a : Int) < retry then
        { ok := r.ok, attempts := r.attempts + 1,
          connCalls := c.connCalls + r.connCalls, sleeps := a * 2 :: r.sleeps }
      else
        { ok := r.ok, attempts := r.attempts + 1,
          connCalls := c.connCalls + r.connCalls, sleeps := r.sleeps }

/-- `DataSender.send_data`: reject blank payloads before any network I/O,
then run the retry loop. -/
def sendData (retry : Int) (payload : String) (cycles : Nat → CycleEnv) : SendOut :=
  if isBlankPayload payload then
    { ok := false, attempts := 0, connCalls := 0, sleeps := [] }
  else
    sendDataLoop cycles retry (attemptNumbers retry)

/-- Result of `send_data_with_response` plus its observable side effects. -/
structure RespOut where
  response : Option String
  connCalls : Nat
  closes : Nat
deriving DecidableEq, Repr

/-- `DataSender.send_data_with_response`: a single connection cycle with no
payload validation, no retry and no sleep.  Returns the decoded response on
a non-empty read; `None` on connection failure, `sendall` error, zero-byte
read, `recv` error or decode error.  The `finally` block closes the socket
whenever one was created. -/
def sendDataWithResponse (payload : String) (env : CycleEnv) : RespOut :=
  match createConnection env.conn with
  | none => { response := none, connCalls := 1, closes := 0 }
  | some _ =>
    match env.write with
    | .sockErr => { response := none, connCalls := 1, closes := 1 }
    | .otherErr => { response := none, connCalls := 1, closes := 1 }
    | .ok =>
      match env.ack with
      | .timeout => { response := none, connCalls := 1, closes := 1 }
      | .sockErr => { response := none, connCalls := 1, closes := 1 }
      | .otherErr => { response := none, connCalls := 1, closes := 1 }
      | .bytes b =>
        if b.isEmpty then
          { response := none, connCalls := 1, closes := 1 }
        else
          match utf8Decode b with
          | some s => { response := some s, connCalls := 1, closes := 1 }
          | none => { response := none, connCalls := 1, closes := 1 }

/-! ## Server: `handle_client` (`src/Server.py`)

One handler iteration is driven by a `HandlerEvent`: the value of the
shared `server_running` flag read at the top of the loop, what `recv`
would yield, and whether the acknowledgment `sendall` would succeed.
The whole handler run is driven by a finite list of such events; a run
that consumes the whole list without exiting is marked
`ExitKind.eventsExhausted` (an artifact of finiteness, used by no claim). -/

/-- How the `handle_client` read loop ended. -/
inductive ExitKind
  | shutdown        -- `server_running` was false at the loop top
  | peerClosed      -- `recv` returned zero bytes: normal termination
  | sockError       -- `recv` raised `socket.error`
  | unexpectedError -- `recv` raised some other exception
  | decodeError     -- `data.decode('utf-8')` raised (caught as unexpected error)
  | eventsExhausted -- the finite event list ran out (model artifact)
deriving DecidableEq, Repr

/-- Environment of one `handle_client` loop iteration. -/
structure HandlerEvent where
  running : Bool
  recv : RecvResult
  ackWriteOk : Bool
deriving DecidableEq, Repr

/-- Observable behaviour of the `handle_client` read loop. -/
structure LoopOut where
  reads : Nat                -- number of `recv` calls performed
  acks : List (List Nat)     -- byte strings passed to `sendall`, in order
  ackWriteErrors : Nat       -- acknowledgment write failures (logged at ERROR)
  exit : ExitKind
deriving DecidableEq, Repr

/-- The `while server_running:` read/echo loop of `handle_client`.  A
zero-byte read breaks out normally; a `recv` error or a decode error exits
through the corresponding `except` branch; an acknowledgment write failure
is logged and the loop continues reading. -/
def handleLoop : List HandlerEvent → LoopOut
  | [] => { reads := 0, acks := [], ackWriteErrors := 0, exit := .eventsExhausted }
  | e :: rest =>
    if e.running = false then
      { reads := 0, acks := [], ackWriteErrors := 0, exit := .shutdown }
    else
      match e.recv with
      | .sockErr => { reads := 1, acks := [], ackWriteErrors := 0, exit := .sockError }
      | .timeout => { reads := 1, acks := [], ackWriteErrors := 0, exit := .sockError }
      | .otherErr => { reads := 1, acks := [], ackWriteErrors := 0, exit := .unexpectedError }
      | .bytes b =>
        if b.isEmpty then
          { reads := 1, acks := [], ackWriteErrors := 0, exit := .peerClosed }
        else
          match utf8Decode b with
          | none => { reads := 1, acks := [], ackWriteErrors := 0, exit := .decodeError }
          | some message =>
            let ackBytes := utf8Encode ("Server received: " ++ message)
            let r := handleLoop rest
            { reads := r.reads + 1, acks := ackBytes :: r.acks,
              ackWriteErrors := r.ackWriteErrors + (if e.ackWriteOk then 0 else 1),
              exit := r.exit }

/-- Full result of `handle_client`: the loop behaviour plus the `finally`
block's close. -/
structure HandlerResult where
  loop : LoopOut
  closeCalls : Nat
  closeErrorLogged : Bool
deriving DecidableEq, Repr

/-- `handle_client`: run the read loop, then close the connection exactly
once in the `finally` block; a close failure is only logged. -/
def handleClient (events : List HandlerEvent) (closeOk : Bool) : HandlerResult :=
  { loop := handleLoop events, closeCalls := 1, closeErrorLogged := !closeOk }

/-! ## Server: `start_server` accept loop (`src/Server.py`)

One accept-loop iteration is driven by an `AcceptEvent`: `server_running`
read at the loop top, the `accept` outcome, and — because the signal
handler may flip the flag while `accept` blocks — the value of
`server_running` re-read inside the `except socket.error` branch. -/

/-- Outcome of one `server.accept()` call. -/
inductive AcceptResult
  | conn     -- a client connection was accepted
  | sockErr  -- `accept` raised `socket.error`
deriving DecidableEq, Repr

/-- Environment of one accept-loop iteration. -/
structure AcceptEvent where
  running : Bool
  accept : AcceptResult
  runningAtErr : Bool
deriving DecidableEq, Repr

/-- How the accept loop ended. -/
inductive AcceptExit
  | shutdown        -- `server_running` was false at the loop top
  | acceptError     -- `accept` raised: the loop breaks (no retry)
  | eventsExhausted -- the finite event list ran out (model artifact)
deriving DecidableEq, Repr

/-- Observable behaviour of the accept loop. -/
structure AcceptOut where
  spawned : Nat              -- handler threads started
  acceptErrorLogged : Bool   -- was an accept error logged?
  exit : AcceptExit
deriving DecidableEq, Repr

/-- The `while server_running:` accept loop of `start_server`.  On a
successful accept it spawns a handler thread and continues; on
`socket.error` it logs only if `server_running` is still true, then breaks
either way. -/
def acceptLoop : List AcceptEvent → AcceptOut
  | [] => { spawned := 0, acceptErrorLogged := false, exit := .eventsExhausted }
  | e :: rest =>
    if e.running = false then
      { spawned := 0, acceptErrorLogged := false, exit := .shutdown }
    else
      match e.accept with
      | .sockErr =>
        { spawned := 0, acceptErrorLogged := e.runningAtErr, exit := .acceptError }
      | .conn =>
        let r := acceptLoop rest
        { spawned := r.spawned + 1, acceptErrorLogged := r.acceptErrorLogged,
          exit := r.exit }

/-- Full result of `start_server`: the accept-loop behaviour plus the
`finally` block's close of the listening socket. -/
structure ServerResult where
  loop : AcceptOut
  closeCalls : Nat
  closeErrorLogged : Bool
deriving DecidableEq, Repr

/-- `start_server` (from the point the listening socket is up): run the
accept loop, then close the listening socket exactly once in the `finally`
block; a close failure is only logged. -/
def startServer (events : List AcceptEvent) (closeOk : Bool) : ServerResult :=
  { loop := acceptLoop events, closeCalls := 1, closeErrorLogged := !closeOk }

/-! ## Helper lemmas -/

/-- A payload whose characters are all Python whitespace (this includes the
empty payload) trips `send_data`'s blank-payload guard. -/
lemma isBlankPayload_of_all_space (s : String) (h : s.data.all isPySpace = true) :
    isBlankPayload s = true := by
  have h1 : s.data.dropWhile isPySpace = [] :=
    List.dropWhile_eq_nil_iff.mpr (by simpa [List.all_eq_true] using h)
  simp [isBlankPayload, pyStrip, h1]

/-- Every call of `_send_data_once` calls `_create_connection` exactly
once. -/
lemma sendDataOnce_connCalls (env : CycleEnv) : (sendDataOnce env).connCalls = 1 := by
  obtain ⟨conn, write, ack, closeOk⟩ := env
  cases conn <;> cases write <;> rfl

/-- On a blank payload `send_data` fails with no attempt, no connection
call and no sleep. -/
lemma sendData_blank_eq (retry : Int) (payload : String) (cycles : Nat → CycleEnv)
    (h : payload.data.all isPySpace = true) :
    sendData retry payload cycles =
      { ok := false, attempts := 0, connCalls := 0, sleeps := [] } := by
  unfold sendData
  rw [isBlankPayload_of_all_space payload h]
  simp

/-- Every call of `send_data_with_response` calls `_create_connection`
exactly once. -/
lemma sendDataWithResponse_connCalls (payload : String) (env : CycleEnv) :
    (sendDataWithResponse payload env).connCalls = 1 := by
  obtain ⟨conn, write, ack, closeOk⟩ := env
  cases conn <;> cases write <;> cases ack <;>
    simp only [sendDataWithResponse, createConnection] <;>
    first
      | rfl
      | (split
         case isTrue => rfl
         case isFalse => split <;> rfl)

/-! ## Claim theorems -/

/-- C2: `_send_data_once` returns failure iff the connection could not be
established or the payload write failed; otherwise it returns success
regardless of the acknowledgment outcome, and an acknowledgment read
timeout or error is only logged as a warning. -/
theorem sendOnce_failure_iff (env : CycleEnv) :
    ((sendDataOnce env).ok = false ↔
      (createConnection env.conn = none ∨ env.write ≠ SendallResult.ok)) ∧
    (createConnection env.conn = some () → env.write = SendallResult.ok →
      (sendDataOnce env).ok = true ∧
      ((env.ack = RecvResult.timeout ∨ env.ack = RecvResult.sockErr ∨
          env.ack = RecvResult.otherErr) →
        (sendDataOnce env).ackWarned = true)) := by
  obtain ⟨conn, write, ack, closeOk⟩ := env
  constructor
  · cases conn <;> cases write <;> simp [sendDataOnce, createConnection]
  · intro hc hw
    cases conn <;> simp [createConnection] at hc
    cases hw
    refine ⟨rfl, ?_⟩
    rintro (h | h | h) <;> subst h <;> rfl

/-- Witness for C2 at a concrete environment: connection and write succeed,
the acknowledgment read times out; the attempt succeeds and the timeout is
logged as a warning. -/
theorem sendOnce_failure_iff_witness :
    (sendDataOnce { conn := .ok, write := .ok, ack := .timeout, closeOk := true }).ok = true ∧
    (sendDataOnce { conn := .ok, write := .ok, ack := .timeout, closeOk := true }).ackWarned = true := by
  have h := (sendOnce_failure_iff
    { conn := .ok, write := .ok, ack := .timeout, closeOk := true }).2 rfl rfl
  exact ⟨h.1, h.2 (Or.inl rfl)⟩

/-- C4: `send_data` on an empty or whitespace-only payload fails
immediately: zero send attempts, zero connection calls and zero backoff
sleeps. -/
theorem sendData_blank_rejected (retry : Int) (payload : String) (cycles : Nat → CycleEnv)
    (h : payload.data.all isPySpace = true) :
    sendData retry payload cycles =
      { ok := false, attempts := 0, connCalls := 0, sleeps := [] } :=
  sendData_blank_eq retry payload cycles h

/-- Witness for C4: the whitespace payload `" \t "` with three retries is
rejected with no attempt. -/
theorem sendData_blank_rejected_witness :
    sendData 3 " \t " (fun _ => { conn := .ok, write := .ok, ack := .timeout, closeOk := true }) =
      { ok := false, attempts := 0, connCalls := 0, sleeps := [] } :=
  sendData_blank_rejected 3 " \t " _ (by decide)

/-- C10: with a non-positive configured retry limit, `send_data` on a
non-blank payload returns failure without entering the retry loop: zero
attempts, zero connection calls, zero sleeps. -/
theorem sendData_nonpositive_retry (retry : Int) (payload : String) (cycles : Nat → CycleEnv)
    (hN : retry ≤ 0) (hp : isBlankPayload payload = false) :
    sendData retry payload cycles =
      { ok := false, attempts := 0, connCalls := 0, sleeps := [] } := by
  unfold sendData
  rw [hp]
  simp [attemptNumbers, Int.toNat_of_nonpos hN, sendDataLoop]

/-- Witness for C10: retry limit `0` and payload `"x"`. -/
theorem sendData_nonpositive_retry_witness :
    sendData 0 "x" (fun _ => { conn := .ok, write := .ok, ack := .timeout, closeOk := true }) =
      { ok := false, attempts := 0, connCalls := 0, sleeps := [] } :=
  sendData_nonpositive_retry 0 "x" _ (by decide) (by decide)

/-- C9: `send_data_with_response` performs exactly one connection cycle,
closes every connection it established, and returns `some` decoded text
exactly when the connection and the write succeeded and the acknowledgment
read returned non-empty bytes that decode; in every other case it returns
`none`. -/
theorem sendDataWithResponse_spec (payload : String) (env : CycleEnv) :
    (sendDataWithResponse payload env).connCalls = 1 ∧
    (createConnection env.conn = some () → (sendDataWithResponse payload env).closes = 1) ∧
    (∀ s, (sendDataWithResponse payload env).response = some s ↔
      (createConnection env.conn = some () ∧ env.write = SendallResult.ok ∧
        ∃ b, env.ack = RecvResult.bytes b ∧ b.isEmpty = false ∧ utf8Decode b = some s)) := by
  refine ⟨sendDataWithResponse_connCalls payload env, ?_, ?_⟩
  · obtain ⟨conn, write, ack, closeOk⟩ := env
    intro hc
    cases conn <;> simp [createConnection] at hc
    cases write <;> cases ack <;>
      simp only [sendDataWithResponse, createConnection] <;>
      first
        | rfl
        | (split
           case isTrue => rfl
           case isFalse => split <;> rfl)
  · intro s
    obtain ⟨conn, write, ack, closeOk⟩ := env
    cases conn <;> cases write <;> cases ack <;>
      simp [sendDataWithResponse, createConnection]
    case ok.ok.bytes b =>
      by_cases hb : b = []
      · simp [hb]
      · cases hd : utf8Decode b <;> simp [hb, hd]

/-- Witness for C9: a successful cycle whose acknowledgment bytes decode to
`"hi"`. -/
theorem sendDataWithResponse_spec_witness :
    (sendDataWithResponse "ping"
        { conn := .ok, write := .ok, ack := .bytes [104, 105], closeOk := true }).response =
      some "hi" := by
  refine ((sendDataWithResponse_spec "ping"
    { conn := .ok, write := .ok, ack := .bytes [104, 105], closeOk := true }).2.2 "hi").mpr
    ⟨rfl, rfl, [104, 105], rfl, rfl, by decide⟩

/-- C3 counterexample: the claim extends the blank-payload rejection to
`send_data_with_response`, but that variant performs no validation: on the
empty payload it still makes a connection attempt. -/
theorem sendDataWithResponse_blank_connects :
    isBlankPayload "" = true ∧
    (sendDataWithResponse ""
        { conn := .ok, write := .ok, ack := .bytes [], closeOk := true }).connCalls = 1 :=
  ⟨by decide, rfl⟩

/-- C3 amended: `send_data` rejects empty or whitespace-only payloads
before any connection attempt, but `send_data_with_response` performs no
payload validation and always makes exactly one connection attempt, blank
payload or not. -/
theorem sendData_validates_response_variant_does_not
    (retry : Int) (payload : String) (cycles : Nat → CycleEnv) (env : CycleEnv)
    (h : payload.data.all isPySpace = true) :
    sendData retry payload cycles =
      { ok := false, attempts := 0, connCalls := 0, sleeps := [] } ∧
    (sendDataWithResponse payload env).connCalls = 1 :=
  ⟨sendData_blank_eq retry payload cycles h, sendDataWithResponse_connCalls payload env⟩

/-- Witness for the amended C3 at the empty payload. -/
theorem sendData_validates_response_variant_does_not_witness :
    sendData 3 "" (fun _ => { conn := .ok, write := .ok, ack := .timeout, closeOk := true }) =
      { ok := false, attempts := 0, connCalls := 0, sleeps := [] } ∧
    (sendDataWithResponse ""
        { conn := .ok, write := .ok, ack := .timeout, closeOk := true }).connCalls = 1 :=
  sendData_validates_response_variant_does_not 3 "" _ _ (by decide)

/-- UTF-8 encoding is a homomorphism for string concatenation, so the
acknowledgment bytes are the prefix bytes followed by the message bytes. -/
lemma utf8Encode_append (a b : String) :
    utf8Encode (a ++ b) = utf8Encode a ++ utf8Encode b := by
  simp [utf8Encode, utf8EncodeChars, String.data_append, List.flatMap_append]

/-- C5: whenever the handler decodes a message `m` from a read, the
acknowledgment bytes it hands to the write are exactly the UTF-8 bytes of
`"Server received: "` followed by the UTF-8 bytes of `m`. -/
theorem handler_ack_bytes (e : HandlerEvent) (rest : List HandlerEvent)
    (b : List Nat) (m : String)
    (hrun : e.running = true) (hb : e.recv = RecvResult.bytes b)
    (hne : b.isEmpty = false) (hdec : utf8Decode b = some m) :
    (handleLoop (e :: rest)).acks.head? =
      some (utf8Encode "Server received: " ++ utf8Encode m) := by
  rw [← utf8Encode_append]
  simp [handleLoop, hrun, hb, hne, hdec]

/-- Witness for C5: a single read of the byte `77` (`"M"`) produces the
acknowledgment bytes of `"Server received: M"`. -/
theorem handler_ack_bytes_witness :
    (handleLoop [{ running := true, recv := RecvResult.bytes [77], ackWriteOk := true }]).acks.head? =
      some (utf8Encode "Server received: " ++ utf8Encode "M") :=
  handler_ack_bytes _ [] [77] "M" rfl rfl rfl (by decide)

/-- C6: an acknowledgment write failure does not terminate the read loop:
the handler performs one more read than the rest of the run, records one
more write error, and ends the same way the rest of the run ends. -/
theorem handler_continues_after_ack_failure (e : HandlerEvent) (rest : List HandlerEvent)
    (b : List Nat) (m : String)
    (hrun : e.running = true) (hb : e.recv = RecvResult.bytes b)
    (hne : b.isEmpty = false) (hdec : utf8Decode b = some m)
    (hw : e.ackWriteOk = false) :
    (handleLoop (e :: rest)).reads = (handleLoop rest).reads + 1 ∧
    (handleLoop (e :: rest)).exit = (handleLoop rest).exit ∧
    (handleLoop (e :: rest)).ackWriteErrors = (handleLoop rest).ackWriteErrors + 1 := by
  simp [handleLoop, hrun, hb, hne, hdec, hw]

/-- Witness for C6: after a failed acknowledgment write the handler still
reads the next chunk and sees the peer close. -/
theorem handler_continues_after_ack_failure_witness :
    (handleLoop [{ running := true, recv := RecvResult.bytes [77], ackWriteOk := false },
                 { running := true, recv := RecvResult.bytes [], ackWriteOk := true }]).reads =
      (handleLoop [{ running := true, recv := RecvResult.bytes [], ackWriteOk := true }]).reads + 1 ∧
    (handleLoop [{ running := true, recv := RecvResult.bytes [77], ackWriteOk := false },
                 { running := true, recv := RecvResult.bytes [], ackWriteOk := true }]).exit =
      (handleLoop [{ running := true, recv := RecvResult.bytes [], ackWriteOk := true }]).exit ∧
    (handleLoop [{ running := true, recv := RecvResult.bytes [77], ackWriteOk := false },
                 { running := true, recv := RecvResult.bytes [], ackWriteOk := true }]).ackWriteErrors =
      (handleLoop [{ running := true, recv := RecvResult.bytes [], ackWriteOk := true }]).ackWriteErrors + 1 :=
  handler_continues_after_ack_failure _ _ [77] "M" rfl rfl rfl (by decide) rfl

/-- C7: a zero-byte read terminates the handler loop as normal termination
(`peerClosed`, not one of the error exits), and on every handler run the
connection is closed exactly once, a close failure changing nothing but the
logged flag. -/
theorem handler_zero_read_and_single_close (e : HandlerEvent) (rest : List HandlerEvent)
    (events : List HandlerEvent) (closeOk : Bool)
    (hrun : e.running = true) (hz : e.recv = RecvResult.bytes []) :
    handleLoop (e :: rest) =
      { reads := 1, acks := [], ackWriteErrors := 0, exit := ExitKind.peerClosed } ∧
    (handleClient events closeOk).closeCalls = 1 ∧
    (handleClient events closeOk).loop = handleLoop events := by
  refine ⟨?_, rfl, rfl⟩
  simp [handleLoop, hrun, hz]

/-- Witness for C7: a run that reads one message and then a zero-byte
chunk; the close is attempted exactly once even when it fails. -/
theorem handler_zero_read_and_single_close_witness :
    handleLoop [{ running := true, recv := RecvResult.bytes [], ackWriteOk := true }] =
      { reads := 1, acks := [], ackWriteErrors := 0, exit := ExitKind.peerClosed } ∧
    (handleClient [{ running := true, recv := RecvResult.bytes [77], ackWriteOk := true }]
        false).closeCalls = 1 ∧
    (handleClient [{ running := true, recv := RecvResult.bytes [77], ackWriteOk := true }]
        false).loop =
      handleLoop [{ running := true, recv := RecvResult.bytes [77], ackWriteOk := true }] :=
  handler_zero_read_and_single_close _ [] _ false rfl rfl

/-- C8: after any prefix of successful accepts, a single accept error ends
the accept loop with no retry (later events are never reached), the error
being logged exactly when the running flag is still true at the error
check and silent otherwise; and on every server run the listening socket
is closed exactly once, a close failure changing nothing but the logged
flag. -/
theorem accept_error_ends_server (pre : List AcceptEvent) (e : AcceptEvent)
    (rest : List AcceptEvent) (events : List AcceptEvent) (closeOk : Bool)
    (hpre : ∀ e' ∈ pre, e'.running = true ∧ e'.accept = AcceptResult.conn)
    (hrun : e.running = true) (herr : e.accept = AcceptResult.sockErr) :
    acceptLoop (pre ++ e :: rest) =
      { spawned := pre.length, acceptErrorLogged := e.runningAtErr,
        exit := AcceptExit.acceptError } ∧
    (startServer events closeOk).closeCalls = 1 ∧
    (startServer events closeOk).loop = acceptLoop events := by
  refine ⟨?_, rfl, rfl⟩
  induction pre with
  | nil => simp [acceptLoop, hrun, herr]
  | cons p ps ih =>
    obtain ⟨hp, hpc⟩ := hpre p (List.mem_cons_self p ps)
    have ihr := ih fun e' he' => hpre e' (List.mem_cons_of_mem p he')
    simp [acceptLoop, hp, hpc, ihr]

/-- Witness for C8: one accepted connection, then an accept error observed
with the running flag already false — the loop ends silently having
spawned one handler, and the listening socket is closed once. -/
theorem accept_error_ends_server_witness :
    acceptLoop ([{ running := true, accept := AcceptResult.conn, runningAtErr := true }] ++
        { running := true, accept := AcceptResult.sockErr, runningAtErr := false } ::
        [{ running := true, accept := AcceptResult.conn, runningAtErr := true }]) =
      { spawned := 1, acceptErrorLogged := false, exit := AcceptExit.acceptError } ∧
    (startServer [] false).closeCalls = 1 ∧
    (startServer [] false).loop = acceptLoop [] := by
  refine accept_error_ends_server _ _ _ [] false ?_ rfl rfl
  intro e' he'
  simp only [List.mem_singleton] at he'
  subst he'
  exact ⟨rfl, rfl⟩

/-! ## The retry loop of `send_data` (claim C1) -/

/-- The consecutive attempt numbers `k, k+1, ..., k+n-1`; the retry loop
walks `seg 1 retry_attempts`. -/
def seg (k n : Nat) : List Nat :=
  (List.range n).map (· + k)

lemma attemptNumbers_eq_seg (retry : Int) : attemptNumbers retry = seg 1 retry.toNat := rfl

lemma seg_succ (k n : Nat) : seg k (n + 1) = k :: seg (k + 1) n := by
  unfold seg
  rw [List.range_succ_eq_map, List.map_cons, List.map_map]
  refine congrArg₂ _ (Nat.zero_add k) ?_
  refine List.map_congr_left fun a _ => ?_
  simp only [Function.comp_apply, Nat.succ_eq_add_one]
  omega

lemma range_map_mul_succ (k m : Nat) :
    (List.range (m + 1)).map (fun i => (k + i) * 2) =
      k * 2 :: (List.range m).map (fun i => (k + 1 + i) * 2) := by
  rw [List.range_succ_eq_map, List.map_cons, List.map_map]
  refine congrArg₂ _ (by omega) ?_
  refine List.map_congr_left fun a _ => ?_
  simp only [Function.comp_apply, Nat.succ_eq_add_one]
  omega

lemma range_map_add_comm (k m : Nat) :
    (List.range m).map (fun i => (k + i) * 2) = (List.range m).map (fun i => (i + k) * 2) :=
  List.map_congr_left fun a _ => by omega

/-- When every attempt from `k` on fails and the segment ends exactly at
the configured limit, the loop performs one attempt per segment element
and sleeps `a * 2` seconds after every element but the last. -/
lemma sendDataLoop_all_fail (cycles : Nat → CycleEnv) (retry : Int) :
    ∀ (n k : Nat), 1 ≤ k → (k : Int) + n = retry + 1 →
    (∀ a, k ≤ a → (sendDataOnce (cycles a)).ok = false) →
    sendDataLoop cycles retry (seg k n) =
      { ok := false, attempts := n, connCalls := n,
        sleeps := (List.range (n - 1)).map (fun i => (k + i) * 2) } := by
  intro n
  induction n with
  | zero => intro k _ _ _; simp [seg, sendDataLoop]
  | succ m ih =>
    intro k hk hsum hfail
    rw [seg_succ]
    simp only [sendDataLoop, hfail k le_rfl, Bool.false_eq_true, if_false]
    have hretry : retry = (k : Int) + m := by omega
    rcases Nat.eq_zero_or_pos m with hm | hm
    · subst hm
      have hnotlt : ¬ ((k : Nat) : Int) < retry := by omega
      rw [if_neg hnotlt]
      simp [seg, sendDataLoop, sendDataOnce_connCalls (cycles k)]
    · have hlt : ((k : Nat) : Int) < retry := by omega
      rw [if_pos hlt]
      have hr := ih (k + 1) (by omega) (by push_cast; omega)
        (fun a ha => hfail a (by omega))
      rw [hr]
      obtain ⟨m', rfl⟩ := Nat.exists_eq_succ_of_ne_zero (Nat.pos_iff_ne_zero.mp hm)
      dsimp only
      rw [SendOut.mk.injEq]
      refine ⟨rfl, rfl, ?_, ?_⟩
      · rw [sendDataOnce_connCalls (cycles k)]
        omega
      · simp only [Nat.succ_eq_add_one, Nat.add_sub_cancel]
        rw [range_map_mul_succ k m']

/-- When attempts `k, ..., k0-1` fail and attempt `k0 ≤ retry` succeeds,
the loop stops at `k0` after `k0 - k + 1` attempts, sleeping after each of
the failed ones. -/
lemma sendDataLoop_first_success (cycles : Nat → CycleEnv) (retry : Int) :
    ∀ (n k k0 : Nat), k ≤ k0 → k0 < k + n → (k0 : Int) ≤ retry →
    (∀ a, k ≤ a → a < k0 → (sendDataOnce (cycles a)).ok = false) →
    (sendDataOnce (cycles k0)).ok = true →
    sendDataLoop cycles retry (seg k n) =
      { ok := true, attempts := k0 - k + 1, connCalls := k0 - k + 1,
        sleeps := (List.range (k0 - k)).map (fun i => (k + i) * 2) } := by
  intro n
  induction n with
  | zero => intro k k0 h1 h2 _ _ _; omega
  | succ m ih =>
    intro k k0 hkk0 hlt hbound hfail hsucc
    rw [seg_succ]
    by_cases hk : k = k0
    · subst hk
      simp [sendDataLoop, hsucc, sendDataOnce_connCalls (cycles k)]
    · have hk' : k < k0 := lt_of_le_of_ne hkk0 hk
      simp only [sendDataLoop, hfail k le_rfl hk', Bool.false_eq_true, if_false]
      have hltr : ((k : Nat) : Int) < retry := by
        have : ((k : Nat) : Int) < (k0 : Int) := by exact_mod_cast hk'
        omega
      rw [if_pos hltr]
      have hr := ih (k + 1) k0 (by omega) (by omega) hbound
        (fun a ha hak0 => hfail a (by omega) hak0) hsucc
      rw [hr]
      dsimp only
      rw [SendOut.mk.injEq]
      refine ⟨rfl, by omega, ?_, ?_⟩
      · rw [sendDataOnce_connCalls (cycles k)]
        omega
      · have hm : k0 - k = (k0 - (k + 1)) + 1 := by omega
        rw [hm, range_map_mul_succ]

/-- C1: for a retry limit `N ≥ 1` and a non-blank payload, if every cycle
fails then `send_data` performs exactly `N` attempts with sleeps
`2, 4, ..., 2(N-1)` and returns failure; if the first success is at
attempt `k ≤ N` it returns success after exactly `k` attempts and sleeps
`2, 4, ..., 2(k-1)`, with no further attempts. -/
theorem sendData_retry_backoff (N : Int) (payload : String) (cycles : Nat → CycleEnv)
    (hN : 1 ≤ N) (hp : isBlankPayload payload = false) :
    ((∀ a, 1 ≤ a → (sendDataOnce (cycles a)).ok = false) →
      sendData N payload cycles =
        { ok := false, attempts := N.toNat, connCalls := N.toNat,
          sleeps := (List.range (N.toNat - 1)).map (fun i => (i + 1) * 2) }) ∧
    (∀ (k : Nat), 1 ≤ k → (k : Int) ≤ N →
      (∀ a, 1 ≤ a → a < k → (sendDataOnce (cycles a)).ok = false) →
      (sendDataOnce (cycles k)).ok = true →
      sendData N payload cycles =
        { ok := true, attempts := k, connCalls := k,
          sleeps := (List.range (k - 1)).map (fun i => (i + 1) * 2) }) := by
  have hcast : ((N.toNat : Nat) : Int) = N := Int.toNat_of_nonneg (by omega)
  constructor
  · intro hfail
    unfold sendData
    rw [hp]
    simp only [Bool.false_eq_true, if_false, attemptNumbers_eq_seg]
    rw [sendDataLoop_all_fail cycles N N.toNat 1 le_rfl (by omega)
      (fun a ha => hfail a ha)]
    rw [range_map_add_comm]
  · intro k hk1 hkN hfail hsucc
    unfold sendData
    rw [hp]
    simp only [Bool.false_eq_true, if_false, attemptNumbers_eq_seg]
    have hk0 : k < 1 + N.toNat := by omega
    rw [sendDataLoop_first_success cycles N N.toNat 1 k hk1 hk0 hkN
      (fun a ha hak => hfail a ha hak) hsucc]
    rw [SendOut.mk.injEq]
    exact ⟨rfl, by omega, by omega, range_map_add_comm 1 (k - 1)⟩

/-- Witness for C1: three permanently failing attempts give exactly three
attempts, sleeps of 2 and 4 seconds, and failure. -/
theorem sendData_retry_backoff_witness :
    sendData 3 "x"
        (fun _ => { conn := .timeout, write := .ok, ack := .timeout, closeOk := true }) =
      { ok := false, attempts := 3, connCalls := 3, sleeps := [2, 4] } := by
  have h := (sendData_retry_backoff 3 "x"
      (fun _ => { conn := .timeout, write := .ok, ack := .timeout, closeOk := true })
      (by decide) (by decide)).1 (fun a _ => rfl)
  rw [h]
  decide

end PhantomStrike
